import Mathlib

/-!
Shallow embedding of the scoring/classification core of the ContentAnalyzer
repository (`src/trend_analyzer`): the promotion detector
(`analyzer/promotion_detector.py`), the trend detector
(`analyzer/trend_detector.py`) and the data model (`models.py`).

Python floats are modelled as rationals (`ℚ`); Python's `round` (banker's
rounding) is modelled exactly by `roundHalfEven`/`pyRound`.  The
transcendental functions `math.exp` and `math.log1p` are abstracted into a
`MathFns` parameter; theorems that depend on them take the analytic facts
they need (nonnegativity, positivity at the normalisation points) as
hypotheses, so they hold for the real `exp`/`log1p`.
-/

namespace ContentAnalyzer

/-! ### Python rounding: `round(x, n)` rounds half to even -/

/-- Python's `round()` to an integer: round half to even. -/
def roundHalfEven (q : ℚ) : ℤ :=
  if q - (⌊q⌋ : ℚ) < 1/2 then ⌊q⌋
  else if 1/2 < q - (⌊q⌋ : ℚ) then ⌊q⌋ + 1
  else if ⌊q⌋ % 2 = 0 then ⌊q⌋ else ⌊q⌋ + 1

/-- Python's `round(q, n)` for a nonnegative number of digits `n`. -/
def pyRound (q : ℚ) (n : ℕ) : ℚ :=
  (roundHalfEven (q * (10 : ℚ) ^ n) : ℚ) / (10 : ℚ) ^ n

/-! ### Data model (models.py) -/

/-- `Platform` enumeration: the two supported platforms. -/
inductive Platform
  | threads
  | instagram
deriving DecidableEq

/-- `PromotionLabel` enumeration. -/
inductive PromotionLabel
  | organic
  | paid
  | uncertain
deriving DecidableEq

/-- `EngagementMetrics`: the per-post engagement counters (all default 0). -/
structure EngagementMetrics where
  likes : ℕ := 0
  comments : ℕ := 0
  shares : ℕ := 0
  views : ℕ := 0
  reposts : ℕ := 0
deriving DecidableEq

/-- `EngagementMetrics.total_engagement`: plain sum of all five counters. -/
def EngagementMetrics.total_engagement (e : EngagementMetrics) : ℕ :=
  e.likes + e.comments + e.shares + e.views + e.reposts

/-- A Python `datetime`: wall-clock time measured in hours, plus an optional
timezone offset (`tzinfo`), also in hours.  The absolute instant an aware
datetime denotes is `wallHours - offset`; a naive datetime is read in the
program's implicit local convention. -/
structure PyDatetime where
  wallHours : ℚ
  tzOffsetHours : Option ℚ := none
deriving DecidableEq

/-- `datetime.replace(tzinfo=None)`: drops the timezone, keeping the
wall-clock fields unchanged. -/
def PyDatetime.stripTz (t : PyDatetime) : PyDatetime :=
  { t with tzOffsetHours := none }

/-- The equivalent naive datetime in the internal (naive, local) convention
whose offset is `localOffset`: an aware time is converted (as
`astimezone` followed by dropping the zone would do); a naive time is
already in the convention. -/
def PyDatetime.toNaiveConvention (localOffset : ℚ) (t : PyDatetime) : PyDatetime :=
  match t.tzOffsetHours with
  | none => t
  | some o => ⟨t.wallHours - o + localOffset, none⟩

/-- `SocialPost` (models.py). -/
structure SocialPost where
  post_id : String := ""
  platform : Platform
  author : String := "unknown"
  text : String := ""
  engagement : EngagementMetrics := {}
  created_at : PyDatetime := ⟨0, none⟩
  hashtags : List String := []
  url : String := ""
  is_business_account : Bool := false
  has_sponsor_label : Bool := false
  follower_count : Option ℕ := none
deriving DecidableEq

/-- `PromotionSignal` (models.py). -/
structure PromotionSignal where
  keyword_detected : Bool := false
  engagement_anomaly : Bool := false
  burst_pattern : Bool := false
  business_account : Bool := false
  platform_sponsor_flag : Bool := false
  promotion_probability : ℚ := 0
deriving DecidableEq

/-- `PromotionSignal.label`: probability-threshold classification. -/
def PromotionSignal.label (s : PromotionSignal) : PromotionLabel :=
  if s.promotion_probability ≥ 7/10 then PromotionLabel.paid
  else if s.promotion_probability ≤ 3/10 then PromotionLabel.organic
  else PromotionLabel.uncertain

/-! ### PromotionDetector (analyzer/promotion_detector.py) -/

namespace PromotionDetector

/-- Python's `\s` on the strings at hand: ASCII whitespace. -/
def isPySpace (c : Char) : Bool :=
  c == ' ' || c == '\t' || c == '\n' || c == '\r' || c == '\x0b' || c == '\x0c'

/-- Try to strip the pattern `p` from the front of `s`; return the rest on
success. -/
def matchChars : List Char → List Char → Option (List Char)
  | [], s => some s
  | _ :: _, [] => none
  | p :: ps, c :: cs => if p == c then matchChars ps cs else none

/-- The regex fragment `(?:\s|$)` at the current position. -/
def boundaryAfter (s : List Char) : Bool :=
  match s with
  | [] => true
  | c :: _ => isPySpace c

/-- `p` matches at the head of `s` and is followed by whitespace or the end
of the string. -/
def tokenAt (p s : List Char) : Bool :=
  match matchChars p s with
  | some rest => boundaryAfter rest
  | none => false

/-- `p` matches as a bounded token at some position strictly inside `s`
(i.e. right after a whitespace character). -/
def tokenAfterSpace (p : List Char) : List Char → Bool
  | [] => false
  | c :: cs => (isPySpace c && tokenAt p cs) || tokenAfterSpace p cs

/-- `re.search` of `(?:^|\s)p(?:\s|$)`: the token at start of string or
after a whitespace character. -/
def boundedTokenMatch (p s : List Char) : Bool :=
  tokenAt p s || tokenAfterSpace p s

/-- Drop leading whitespace (the `\s*` between the two words of a
multi-word phrase; the second word starts with a non-space character, so
greedy skipping is exact). -/
def skipSpaces : List Char → List Char
  | [] => []
  | c :: cs => if isPySpace c then skipSpaces cs else c :: cs

/-- The regex fragment `x\s*y` anchored at the head of `s`. -/
def seqAt (x y s : List Char) : Bool :=
  match matchChars x s with
  | some rest => (matchChars y (skipSpaces rest)).isSome
  | none => false

/-- `re.search` of `x\s*y`: the two-word phrase as a free substring. -/
def seqMatch (x y : List Char) : List Char → Bool
  | [] => seqAt x y []
  | c :: cs => seqAt x y (c :: cs) || seqMatch x y cs

/-- `_SPONSOR_PATTERN.search(text)`: the alternation of the eight
`SPONSOR_KEYWORDS`, matched case-insensitively (`re.IGNORECASE`; every
cased letter in the patterns is ASCII, so ASCII lowering is exact). -/
def _check_sponsor_keywords (text : String) : Bool :=
  let s := text.data.map Char.toLower
  boundedTokenMatch "#ad".data s ||
  boundedTokenMatch "#sponsored".data s ||
  boundedTokenMatch "#광고".data s ||
  boundedTokenMatch "#스폰서".data s ||
  seqMatch "paid".data "partnership".data s ||
  seqMatch "sponsored".data "post".data s ||
  seqMatch "브랜디드".data "콘텐츠".data s ||
  seqMatch "광고".data "포함".data s

/-- `_check_engagement_anomaly`: `likes / follower_count > 0.10`, with a
`None` or zero follower count yielding `False` (Python: `not
post.follower_count or post.follower_count == 0`). -/
def _check_engagement_anomaly (post : SocialPost) : Bool :=
  match post.follower_count with
  | none => false
  | some fc =>
    if fc = 0 then false
    else decide ((post.engagement.likes : ℚ) / (fc : ℚ) > 10/100)

/-- `_check_burst_pattern`: low like-to-view ratio, or many likes with zero
comments. -/
def _check_burst_pattern (post : SocialPost) : Bool :=
  let likes := post.engagement.likes
  let views := post.engagement.views
  let comments := post.engagement.comments
  (if 0 < views ∧ 0 < likes then
    decide ((likes : ℚ) / (views : ℚ) < 5/1000)
  else false)
  || (decide (100 < likes) && decide (comments = 0))

def WEIGHT_KEYWORD : ℚ := 35/100
def WEIGHT_PLATFORM_FLAG : ℚ := 30/100
def WEIGHT_ENGAGEMENT : ℚ := 15/100
def WEIGHT_BURST : ℚ := 10/100
def WEIGHT_BUSINESS : ℚ := 10/100

/-- `1.0 if b else 0.0`. -/
def indicator (b : Bool) : ℚ := if b then 1 else 0

/-- The raw weighted sum computed inside `detect` before rounding. -/
def weightedSum (post : SocialPost) : ℚ :=
  indicator (_check_sponsor_keywords post.text) * WEIGHT_KEYWORD
  + indicator post.has_sponsor_label * WEIGHT_PLATFORM_FLAG
  + indicator (_check_engagement_anomaly post) * WEIGHT_ENGAGEMENT
  + indicator (_check_burst_pattern post) * WEIGHT_BURST
  + indicator post.is_business_account * WEIGHT_BUSINESS

/-- `PromotionDetector.detect`. -/
def detect (post : SocialPost) : PromotionSignal :=
  { keyword_detected := _check_sponsor_keywords post.text
    platform_sponsor_flag := post.has_sponsor_label
    engagement_anomaly := _check_engagement_anomaly post
    burst_pattern := _check_burst_pattern post
    business_account := post.is_business_account
    promotion_probability := pyRound (weightedSum post) 3 }

end PromotionDetector

/-! ### Stable sort (Python's `sorted(key=..., reverse=True)`)

Python's `sorted` is a stable sort; with `reverse=True` it yields the
descending order with ties kept in input order.  Any stable descending
sort computes the same list, so the insertion sort below (which places
each element before the first strictly-smaller key, keeping earlier
equal-key elements first) is an exact model; its sortedness, permutation
and stability properties are proved further down. -/

/-- Insert `a` before the first element whose key is at most `key a`
(so `a`, which occurs earlier in the input, precedes later elements with
an equal key). -/
def insertDesc {α : Type} (key : α → ℕ) (a : α) : List α → List α
  | [] => [a]
  | b :: bs => if key b ≤ key a then a :: b :: bs else b :: insertDesc key a bs

/-- Stable descending sort by `key`. -/
def sortDesc {α : Type} (key : α → ℕ) : List α → List α
  | [] => []
  | a :: rest => insertDesc key a (sortDesc key rest)

/-- The sort key used for top posts: `p.engagement.total_engagement`. -/
def engKey (p : SocialPost) : ℕ := p.engagement.total_engagement

/-! ### Configuration (config.py) and TrendDetector (analyzer/trend_detector.py) -/

/-- The trend-detection parameters of `Settings` with their declared
defaults (the `.env` overrides are external input; the defaults are what
the code ships). -/
structure Settings where
  trend_velocity_window_hours : ℤ := 6
  trend_volume_threshold : ℤ := 10
  cross_platform_boost : ℚ := 15/10

/-- The module-level `settings` instance. -/
def settings : Settings := {}

/-- Python's `x or default` for an optional int argument: `None` and `0`
are falsy, so both select the default; any nonzero value passes through. -/
def orDefaultInt (x : Option ℤ) (d : ℤ) : ℤ :=
  match x with
  | none => d
  | some v => if v = 0 then d else v

/-- Python's `x or default` for an optional float argument. -/
def orDefaultQ (x : Option ℚ) (d : ℚ) : ℚ :=
  match x with
  | none => d
  | some v => if v = 0 then d else v

/-- The abstracted `math` functions used by the trend detector. -/
structure MathFns where
  exp : ℚ → ℚ
  log1p : ℚ → ℚ

/-- The state a constructed `TrendDetector` carries. -/
structure TrendDetector where
  velocity_window : ℤ
  volume_threshold : ℤ
  boost : ℚ

namespace TrendDetector

/-- `TrendDetector.__init__`: each argument defaults to the configured
setting via Python's `or`. -/
def mk' (velocity_window_hours : Option ℤ) (volume_threshold : Option ℤ)
    (cross_platform_boost : Option ℚ) : TrendDetector :=
  { velocity_window := orDefaultInt velocity_window_hours settings.trend_velocity_window_hours
    volume_threshold := orDefaultInt volume_threshold settings.trend_volume_threshold
    boost := orDefaultQ cross_platform_boost settings.cross_platform_boost }

/-- `max((now - created).total_seconds() / 3600, 0.1)`, with times measured
in hours.  `created` is the post's `created_at` after
`replace(tzinfo=None)`, i.e. its wall-clock value. -/
def ageHours (now : ℚ) (t : PyDatetime) : ℚ :=
  max (now - t.wallHours) (1/10)

/-- One post's term of the velocity average:
`engagement_per_hour * time_weight`, where `created` is the post's
`created_at` after `replace(tzinfo=None)` and the weight is 0.1 outside the
window and `exp(-0.3 * age_hours)` inside. -/
def velocityContribution (M : MathFns) (d : TrendDetector) (now : ℚ)
    (post : SocialPost) : ℚ :=
  ((post.engagement.total_engagement : ℕ) : ℚ)
      / ageHours now post.created_at.stripTz
    * (if post.created_at.stripTz.wallHours < now - (d.velocity_window : ℚ) then 1/10
       else M.exp (-(3/10) * ageHours now post.created_at.stripTz))

/-- The `weighted_velocities` list built by `_calculate_velocity`. -/
def weightedVelocities (M : MathFns) (d : TrendDetector) (now : ℚ)
    (posts : List SocialPost) : List ℚ :=
  posts.map (velocityContribution M d now)

/-- `TrendDetector._calculate_velocity`. -/
def _calculate_velocity (M : MathFns) (d : TrendDetector) (now : ℚ)
    (posts : List SocialPost) : ℚ :=
  if posts.isEmpty then 0
  else if (weightedVelocities M d now posts).isEmpty then 0
  else
    min 100 ((M.log1p ((weightedVelocities M d now posts).sum
        / ((weightedVelocities M d now posts).length : ℚ)) / M.log1p 1000) * 100)

/-- `TrendDetector._calculate_volume`. -/
def _calculate_volume (d : TrendDetector) (post_count : ℕ) : ℚ :=
  if d.volume_threshold ≤ 0 then
    if 0 < post_count then 100 else 0
  else
    min 100 ((post_count : ℚ) / (d.volume_threshold : ℚ) * 100)

/-- Total engagement of a post list, as summed in
`_calculate_amplification`. -/
def totalEngagementQ (posts : List SocialPost) : ℚ :=
  (posts.map (fun p => ((p.engagement.total_engagement : ℕ) : ℚ))).sum

/-- The `base_score` of `_calculate_amplification`: log-normalised total
engagement, 10000 mapping to 100 points. -/
def baseAmplification (M : MathFns) (posts : List SocialPost) : ℚ :=
  min 100 ((M.log1p (totalEngagementQ posts) / M.log1p 10000) * 100)

/-- `TrendDetector._calculate_amplification`. -/
def _calculate_amplification (M : MathFns) (d : TrendDetector)
    (posts : List SocialPost) (is_cross_platform : Bool) : ℚ :=
  if posts.isEmpty then 0
  else if is_cross_platform then min 100 (baseAmplification M posts * d.boost)
  else baseAmplification M posts

end TrendDetector

/-- The posts from the Threads platform (`analyze`'s `threads_posts`). -/
def threadsPosts (posts : List SocialPost) : List SocialPost :=
  posts.filter (fun p => decide (p.platform = Platform.threads))

/-- The posts from the Instagram platform (`analyze`'s `ig_posts`). -/
def igPosts (posts : List SocialPost) : List SocialPost :=
  posts.filter (fun p => decide (p.platform = Platform.instagram))

/-- `is_cross = bool(threads_posts) and bool(ig_posts)`. -/
def isCrossPlatform (posts : List SocialPost) : Bool :=
  !(threadsPosts posts).isEmpty && !(igPosts posts).isEmpty

/-- `_analyze_promotions`: the per-post promotion labels. -/
def promoLabels (posts : List SocialPost) : List PromotionLabel :=
  posts.map (fun p => (PromotionDetector.detect p).label)

def organicCount (posts : List SocialPost) : ℕ :=
  (promoLabels posts).countP (fun l => decide (l = PromotionLabel.organic))

def paidCount (posts : List SocialPost) : ℕ :=
  (promoLabels posts).countP (fun l => decide (l = PromotionLabel.paid))

def uncertainCount (posts : List SocialPost) : ℕ :=
  (promoLabels posts).countP (fun l => decide (l = PromotionLabel.uncertain))

/-- The majority rule on label counts (`analyze`, the `dominant_label`
if/elif/else). -/
def dominantLabel (paid_count organic_count total : ℕ) : PromotionLabel :=
  if (paid_count : ℚ) > (total : ℚ) * (5/10) then PromotionLabel.paid
  else if (organic_count : ℚ) > (total : ℚ) * (5/10) then PromotionLabel.organic
  else PromotionLabel.uncertain

/-- `organic_count / total if total > 0 else 1.0`. -/
def organicRatioRaw (organic_count total : ℕ) : ℚ :=
  if 0 < total then (organic_count : ℚ) / (total : ℚ) else 1

/-- The composite before rounding:
`max(0.0, min(100.0, velocity*0.4 + volume*0.3 + amplification*0.3))`. -/
def compositeScore (velocity volume amplification : ℚ) : ℚ :=
  max 0 (min 100 (velocity * (4/10) + volume * (3/10) + amplification * (3/10)))

/-- `TrendResult` (models.py), with the field defaults of the model. -/
structure TrendResult where
  topic : String
  velocity_score : ℚ := 0
  volume_score : ℚ := 0
  amplification_score : ℚ := 0
  trend_score : ℚ := 0
  total_posts : ℕ := 0
  threads_count : ℕ := 0
  instagram_count : ℕ := 0
  is_cross_platform : Bool := false
  organic_count : ℕ := 0
  paid_count : ℕ := 0
  uncertain_count : ℕ := 0
  dominant_promotion_label : PromotionLabel := PromotionLabel.organic
  organic_ratio : ℚ := 1
  top_posts : List SocialPost := []
deriving DecidableEq

/-- `TrendResult.trend_level`: the five score tiers. -/
def TrendResult.trend_level (r : TrendResult) : String :=
  if r.trend_score ≥ 80 then "🔥 HOT TREND"
  else if r.trend_score ≥ 60 then "⚡ TRENDING"
  else if r.trend_score ≥ 40 then "📈 RISING"
  else if r.trend_score ≥ 20 then "💤 LOW ACTIVITY"
  else "❄️ NO TREND"

/-- `TrendDetector.analyze`.  `now` is the wall-clock reference read once
at call start. -/
def analyze (M : MathFns) (d : TrendDetector) (now : ℚ) (topic : String)
    (posts : List SocialPost) : TrendResult :=
  if posts.isEmpty then { topic := topic }
  else
    { topic := topic
      velocity_score := pyRound (TrendDetector._calculate_velocity M d now posts) 1
      volume_score := pyRound (TrendDetector._calculate_volume d posts.length) 1
      amplification_score :=
        pyRound (TrendDetector._calculate_amplification M d posts (isCrossPlatform posts)) 1
      trend_score :=
        pyRound (compositeScore
          (TrendDetector._calculate_velocity M d now posts)
          (TrendDetector._calculate_volume d posts.length)
          (TrendDetector._calculate_amplification M d posts (isCrossPlatform posts))) 1
      total_posts := posts.length
      threads_count := (threadsPosts posts).length
      instagram_count := (igPosts posts).length
      is_cross_platform := isCrossPlatform posts
      organic_count := organicCount posts
      paid_count := paidCount posts
      uncertain_count := uncertainCount posts
      dominant_promotion_label := dominantLabel (paidCount posts) (organicCount posts) posts.length
      organic_ratio := pyRound (organicRatioRaw (organicCount posts) posts.length) 2
      top_posts := (sortDesc engKey posts).take 5 }

/-! ### Concrete instances used to instantiate theorems -/

/-- A concrete instantiation of the abstract math functions (`exp` constantly
one, `log1p` the identity); it satisfies the analytic hypotheses the
theorems below use. -/
def idMathFns : MathFns := { exp := fun _ => 1, log1p := fun x => x }

/-- A degenerate instantiation of the math functions, for counterexamples
whose values do not depend on them. -/
def constMathFns : MathFns := { exp := fun _ => 0, log1p := fun _ => 0 }

/-- `TrendDetector()` with every constructor argument omitted. -/
def defaultDetector : TrendDetector := TrendDetector.mk' none none none

/-- A post with only the text set. -/
def postWithText (t : String) : SocialPost :=
  { platform := Platform.threads, text := t }

/-- A Threads post with the given number of likes. -/
def postWithLikes (n : ℕ) : SocialPost :=
  { platform := Platform.threads, engagement := { likes := n } }

/-- An Instagram post with the given number of likes. -/
def igPostWithLikes (n : ℕ) : SocialPost :=
  { platform := Platform.instagram, engagement := { likes := n } }

/-- The post list of the top-posts ordering test in the specification:
total engagements 10, 50, 30, 5, 90, 20, 1 in input order. -/
def examplePosts : List SocialPost :=
  [postWithLikes 10, postWithLikes 50, postWithLikes 30, postWithLikes 5,
   postWithLikes 90, postWithLikes 20, postWithLikes 1]

/-! ### Helper lemmas: rounding -/

theorem floor_le_roundHalfEven (q : ℚ) : ⌊q⌋ ≤ roundHalfEven q := by
  unfold roundHalfEven
  split_ifs <;> omega

theorem roundHalfEven_le_ceil (q : ℚ) : roundHalfEven q ≤ ⌈q⌉ := by
  have hfc : ⌊q⌋ ≤ ⌈q⌉ := Int.floor_le_ceil q
  have hlt : (⌊q⌋ : ℚ) < q → ⌊q⌋ + 1 ≤ ⌈q⌉ := fun h => Int.lt_ceil.mpr h
  unfold roundHalfEven
  split_ifs with h1 h2 h3
  · exact hfc
  · refine hlt ?_
    have : (0 : ℚ) < q - (⌊q⌋ : ℚ) := lt_trans (by norm_num) h2
    linarith
  · exact hfc
  · refine hlt ?_
    have hfrac : q - (⌊q⌋ : ℚ) = 1/2 := le_antisymm (not_lt.mp h2) (not_lt.mp h1)
    have : (0 : ℚ) < q - (⌊q⌋ : ℚ) := by rw [hfrac]; norm_num
    linarith

theorem roundHalfEven_intCast (m : ℤ) : roundHalfEven (m : ℚ) = m := by
  unfold roundHalfEven
  rw [Int.floor_intCast]
  norm_num

theorem roundHalfEven_nonneg {q : ℚ} (h : 0 ≤ q) : 0 ≤ roundHalfEven q := by
  have : (0 : ℤ) ≤ ⌊q⌋ := Int.floor_nonneg.mpr h
  have := floor_le_roundHalfEven q
  omega

theorem pyRound_nonneg {q : ℚ} (n : ℕ) (h : 0 ≤ q) : 0 ≤ pyRound q n := by
  unfold pyRound
  have hpow : (0 : ℚ) < (10 : ℚ) ^ n := by positivity
  have h1 : (0 : ℤ) ≤ roundHalfEven (q * (10 : ℚ) ^ n) :=
    roundHalfEven_nonneg (by positivity)
  have h2 : (0 : ℚ) ≤ (roundHalfEven (q * (10 : ℚ) ^ n) : ℚ) := by exact_mod_cast h1
  positivity

theorem pyRound_le_intCast {q : ℚ} (n : ℕ) (m : ℤ) (h : q ≤ (m : ℚ)) :
    pyRound q n ≤ (m : ℚ) := by
  unfold pyRound
  have hpow : (0 : ℚ) < (10 : ℚ) ^ n := by positivity
  have hle : q * (10 : ℚ) ^ n ≤ ((m * 10 ^ n : ℤ) : ℚ) := by
    push_cast
    exact mul_le_mul_of_nonneg_right h (le_of_lt hpow)
  have hceil : ⌈q * (10 : ℚ) ^ n⌉ ≤ m * 10 ^ n := Int.ceil_le.mpr hle
  have hr : roundHalfEven (q * (10 : ℚ) ^ n) ≤ m * 10 ^ n :=
    le_trans (roundHalfEven_le_ceil _) hceil
  have hrq : (roundHalfEven (q * (10 : ℚ) ^ n) : ℚ) ≤ ((m * 10 ^ n : ℤ) : ℚ) := by
    exact_mod_cast hr
  rw [div_le_iff₀ hpow]
  push_cast at hrq ⊢
  linarith

/-- `round(q, n)` is the identity when `q * 10^n` is an integer. -/
theorem pyRound_eq_self {q : ℚ} {n : ℕ} {m : ℤ} (h : q * (10 : ℚ) ^ n = (m : ℚ)) :
    pyRound q n = q := by
  unfold pyRound
  rw [h, roundHalfEven_intCast]
  have hpow : (0 : ℚ) < (10 : ℚ) ^ n := by positivity
  field_simp at h ⊢
  linarith [h]


/-! ### Helper lemmas: the stable descending sort -/

theorem insertDesc_perm {α : Type} (key : α → ℕ) (a : α) (l : List α) :
    (insertDesc key a l).Perm (a :: l) := by
  induction l with
  | nil => rfl
  | cons b bs ih =>
    unfold insertDesc
    split_ifs
    · exact List.Perm.refl _
    · exact (ih.cons b).trans (List.Perm.swap a b bs)

theorem sortDesc_perm {α : Type} (key : α → ℕ) (l : List α) :
    (sortDesc key l).Perm l := by
  induction l with
  | nil => rfl
  | cons a rest ih =>
    exact (insertDesc_perm key a (sortDesc key rest)).trans (ih.cons a)

theorem insertDesc_sorted {α : Type} (key : α → ℕ) (a : α) (l : List α)
    (h : l.Pairwise (fun x y => key y ≤ key x)) :
    (insertDesc key a l).Pairwise (fun x y => key y ≤ key x) := by
  induction l with
  | nil => simp [insertDesc]
  | cons b bs ih =>
    cases h with
    | cons hb hbs =>
      unfold insertDesc
      split_ifs with hba
      · refine List.Pairwise.cons ?_ (List.Pairwise.cons hb hbs)
        intro y hy
        rcases List.mem_cons.mp hy with rfl | hy2
        · exact hba
        · exact le_trans (hb y hy2) hba
      · refine List.Pairwise.cons ?_ (ih hbs)
        intro y hy
        rcases List.mem_cons.mp ((insertDesc_perm key a bs).mem_iff.mp hy) with rfl | hy2
        · exact le_of_lt (lt_of_not_le hba)
        · exact hb y hy2

theorem sortDesc_sorted {α : Type} (key : α → ℕ) (l : List α) :
    (sortDesc key l).Pairwise (fun x y => key y ≤ key x) := by
  induction l with
  | nil => exact List.Pairwise.nil
  | cons a rest ih => exact insertDesc_sorted key a (sortDesc key rest) ih

theorem sublist_insertDesc {α : Type} (key : α → ℕ) (a : α) (l : List α) :
    l.Sublist (insertDesc key a l) := by
  induction l with
  | nil => simp [insertDesc]
  | cons b bs ih =>
    unfold insertDesc
    split_ifs
    · exact List.sublist_cons_self a (b :: bs)
    · exact ih.cons₂ b

theorem insertDesc_stable_mem {α : Type} (key : α → ℕ) (a b : α) (l : List α)
    (hab : key b ≤ key a) (hb : b ∈ l) :
    [a, b].Sublist (insertDesc key a l) := by
  induction l with
  | nil => cases hb
  | cons c cs ih =>
    unfold insertDesc
    split_ifs with hca
    · exact (List.singleton_sublist.mpr hb).cons₂ a
    · rcases List.mem_cons.mp hb with rfl | hb2
      · exact absurd hab hca
      · exact (ih hb2).cons c

theorem sortDesc_stable {α : Type} (key : α → ℕ) (a b : α) (l : List α)
    (hab : key b ≤ key a) (h : [a, b].Sublist l) :
    [a, b].Sublist (sortDesc key l) := by
  induction l with
  | nil => simp at h
  | cons c cs ih =>
    cases h with
    | cons _ h2 => exact (ih h2).trans (sublist_insertDesc key c (sortDesc key cs))
    | cons₂ _ h2 =>
      exact insertDesc_stable_mem key a b (sortDesc key cs) hab
        ((sortDesc_perm key cs).mem_iff.mpr (List.singleton_sublist.mp h2))

/-! ### Helper lemmas: label counting and the majority rule -/

theorem countP_add_countP_le_length {α : Type} (p q : α → Bool)
    (hpq : ∀ a, p a = true → q a = false) (l : List α) :
    l.countP p + l.countP q ≤ l.length := by
  induction l with
  | nil => simp
  | cons a t ih =>
    rw [List.countP_cons, List.countP_cons, List.length_cons]
    rcases hp : p a with _ | _
    · rcases hq : q a with _ | _ <;> simp <;> omega
    · have := hpq a hp
      simp [this]
      omega

theorem paid_add_organic_le_length (posts : List SocialPost) :
    paidCount posts + organicCount posts ≤ posts.length := by
  have h := countP_add_countP_le_length
    (fun l => decide (l = PromotionLabel.paid))
    (fun l => decide (l = PromotionLabel.organic))
    (by intro a ha; rcases a <;> simp_all) (promoLabels posts)
  unfold paidCount organicCount
  calc (promoLabels posts).countP (fun l => decide (l = PromotionLabel.paid))
        + (promoLabels posts).countP (fun l => decide (l = PromotionLabel.organic))
      ≤ (promoLabels posts).length := h
    _ = posts.length := by simp [promoLabels]

theorem dominantLabel_spec (pc oc total : ℕ) (h : pc + oc ≤ total) :
    (dominantLabel pc oc total = PromotionLabel.paid ↔ (pc : ℚ) > (total : ℚ) * (5/10))
  ∧ (dominantLabel pc oc total = PromotionLabel.organic ↔ (oc : ℚ) > (total : ℚ) * (5/10))
  ∧ (dominantLabel pc oc total = PromotionLabel.uncertain ↔
      (¬ (pc : ℚ) > (total : ℚ) * (5/10) ∧ ¬ (oc : ℚ) > (total : ℚ) * (5/10))) := by
  have hsum : (pc : ℚ) + (oc : ℚ) ≤ (total : ℚ) := by exact_mod_cast h
  unfold dominantLabel
  split_ifs with h1 h2
  · refine ⟨⟨fun _ => h1, fun _ => rfl⟩, ⟨fun hh => absurd hh (by decide), ?_⟩,
      ⟨fun hh => absurd hh (by decide), fun hh => absurd h1 hh.1⟩⟩
    intro h2
    linarith
  · exact ⟨⟨fun hh => absurd hh (by decide), fun hh => absurd hh h1⟩,
      ⟨fun _ => h2, fun _ => rfl⟩,
      ⟨fun hh => absurd hh (by decide), fun hh => absurd h2 hh.2⟩⟩
  · exact ⟨⟨fun hh => absurd hh (by decide), fun hh => absurd hh h1⟩,
      ⟨fun hh => absurd hh (by decide), fun hh => absurd hh h2⟩,
      ⟨fun _ => ⟨h1, h2⟩, fun _ => rfl⟩⟩

/-! ### Helper lemmas: score bounds -/

theorem pyRound_le_100 {q : ℚ} (n : ℕ) (h : q ≤ 100) : pyRound q n ≤ 100 := by
  have h2 : q ≤ ((100 : ℤ) : ℚ) := by exact_mod_cast h
  have := pyRound_le_intCast n 100 h2
  exact_mod_cast this

theorem velocityContribution_nonneg (M : MathFns) (hexp : ∀ x, 0 ≤ M.exp x)
    (d : TrendDetector) (now : ℚ) (post : SocialPost) :
    0 ≤ TrendDetector.velocityContribution M d now post := by
  unfold TrendDetector.velocityContribution
  have hage : (0 : ℚ) < TrendDetector.ageHours now post.created_at.stripTz := by
    unfold TrendDetector.ageHours
    exact lt_of_lt_of_le (by norm_num) (le_max_right _ _)
  apply mul_nonneg
  · exact div_nonneg (by positivity) hage.le
  · split_ifs
    · norm_num
    · exact hexp _

theorem velocity_bounds (M : MathFns) (hexp : ∀ x, 0 ≤ M.exp x)
    (hlogn : ∀ x, 0 ≤ x → 0 ≤ M.log1p x) (hlog1000 : 0 < M.log1p 1000)
    (d : TrendDetector) (now : ℚ) (posts : List SocialPost) :
    0 ≤ TrendDetector._calculate_velocity M d now posts
  ∧ TrendDetector._calculate_velocity M d now posts ≤ 100 := by
  unfold TrendDetector._calculate_velocity
  split_ifs with h1 h2
  · norm_num
  · norm_num
  · constructor
    · refine le_min (by norm_num) ?_
      have havg : 0 ≤ (TrendDetector.weightedVelocities M d now posts).sum
          / ((TrendDetector.weightedVelocities M d now posts).length : ℚ) := by
        apply div_nonneg
        · apply List.sum_nonneg
          intro x hx
          rcases List.mem_map.mp hx with ⟨p, _, rfl⟩
          exact velocityContribution_nonneg M hexp d now p
        · positivity
      exact mul_nonneg (div_nonneg (hlogn _ havg) hlog1000.le) (by norm_num)
    · exact min_le_left _ _

theorem volume_bounds (d : TrendDetector) (c : ℕ) :
    0 ≤ TrendDetector._calculate_volume d c
  ∧ TrendDetector._calculate_volume d c ≤ 100 := by
  unfold TrendDetector._calculate_volume
  split_ifs with h1 h2
  · norm_num
  · norm_num
  · have hth : (0 : ℚ) < (d.volume_threshold : ℚ) := by
      exact_mod_cast lt_of_not_le h1
    exact ⟨le_min (by norm_num) (mul_nonneg (div_nonneg (by positivity) hth.le) (by norm_num)),
      min_le_left _ _⟩

theorem totalEngagementQ_nonneg (posts : List SocialPost) :
    0 ≤ TrendDetector.totalEngagementQ posts := by
  unfold TrendDetector.totalEngagementQ
  apply List.sum_nonneg
  intro x hx
  rcases List.mem_map.mp hx with ⟨p, _, rfl⟩
  positivity

theorem baseAmplification_bounds (M : MathFns)
    (hlogn : ∀ x, 0 ≤ x → 0 ≤ M.log1p x) (hlog10000 : 0 < M.log1p 10000)
    (posts : List SocialPost) :
    0 ≤ TrendDetector.baseAmplification M posts
  ∧ TrendDetector.baseAmplification M posts ≤ 100 := by
  unfold TrendDetector.baseAmplification
  exact ⟨le_min (by norm_num)
      (mul_nonneg (div_nonneg (hlogn _ (totalEngagementQ_nonneg posts)) hlog10000.le)
        (by norm_num)),
    min_le_left _ _⟩

theorem amplification_bounds (M : MathFns)
    (hlogn : ∀ x, 0 ≤ x → 0 ≤ M.log1p x) (hlog10000 : 0 < M.log1p 10000)
    (d : TrendDetector) (hboost : 0 ≤ d.boost) (posts : List SocialPost)
    (is_cross : Bool) :
    0 ≤ TrendDetector._calculate_amplification M d posts is_cross
  ∧ TrendDetector._calculate_amplification M d posts is_cross ≤ 100 := by
  obtain ⟨hb0, hb100⟩ := baseAmplification_bounds M hlogn hlog10000 posts
  unfold TrendDetector._calculate_amplification
  split_ifs
  · norm_num
  · exact ⟨le_min (by norm_num) (mul_nonneg hb0 hboost), min_le_left _ _⟩
  · exact ⟨hb0, hb100⟩

theorem compositeScore_bounds (a b c : ℚ) :
    0 ≤ compositeScore a b c ∧ compositeScore a b c ≤ 100 := by
  unfold compositeScore
  exact ⟨le_max_left 0 _, max_le (by norm_num) (min_le_left _ _)⟩

/-! ### Claim theorems -/

/-- C1: for every post, `PromotionDetector.detect` returns a
`promotion_probability` equal to the weighted sum of the five boolean
signals taken as 0/1 with weights 0.35, 0.30, 0.15, 0.10, 0.10, rounded to
3 decimal places (a rounding that is in fact the identity on every
attainable value), and the probability always lies in [0, 1] with no
post-hoc clamping. -/
theorem C1_probability_weighted_sum (post : SocialPost) :
    (PromotionDetector.detect post).promotion_probability
      = pyRound (PromotionDetector.weightedSum post) 3
  ∧ pyRound (PromotionDetector.weightedSum post) 3 = PromotionDetector.weightedSum post
  ∧ 0 ≤ PromotionDetector.weightedSum post
  ∧ PromotionDetector.weightedSum post ≤ 1 := by
  refine ⟨rfl, ?_⟩
  unfold PromotionDetector.weightedSum
  cases PromotionDetector._check_sponsor_keywords post.text <;>
  cases post.has_sponsor_label <;>
  cases PromotionDetector._check_engagement_anomaly post <;>
  cases PromotionDetector._check_burst_pattern post <;>
  cases post.is_business_account <;>
    norm_num [PromotionDetector.indicator, PromotionDetector.WEIGHT_KEYWORD,
      PromotionDetector.WEIGHT_PLATFORM_FLAG, PromotionDetector.WEIGHT_ENGAGEMENT,
      PromotionDetector.WEIGHT_BURST, PromotionDetector.WEIGHT_BUSINESS,
      pyRound, roundHalfEven]

/-- C2: the promotion label is a pure function of the probability:
PAID iff p ≥ 0.7, ORGANIC iff p ≤ 0.3, UNCERTAIN iff p lies strictly
between; in particular p = 0.7 gives PAID and p = 0.3 gives ORGANIC. -/
theorem C2_label_thresholds (s : PromotionSignal) :
    (s.label = PromotionLabel.paid ↔ 7/10 ≤ s.promotion_probability)
  ∧ (s.label = PromotionLabel.organic ↔ s.promotion_probability ≤ 3/10)
  ∧ (s.label = PromotionLabel.uncertain ↔
      3/10 < s.promotion_probability ∧ s.promotion_probability < 7/10) := by
  unfold PromotionSignal.label
  split_ifs with h1 h2
  · exact ⟨⟨fun _ => h1, fun _ => rfl⟩,
      ⟨fun hh => absurd hh (by decide), fun hh => by linarith⟩,
      ⟨fun hh => absurd hh (by decide), fun hh => by linarith [hh.2]⟩⟩
  · exact ⟨⟨fun hh => absurd hh (by decide), fun hh => absurd hh h1⟩,
      ⟨fun _ => h2, fun _ => rfl⟩,
      ⟨fun hh => absurd hh (by decide), fun hh => by linarith [hh.1]⟩⟩
  · exact ⟨⟨fun hh => absurd hh (by decide), fun hh => absurd hh h1⟩,
      ⟨fun hh => absurd hh (by decide), fun hh => absurd hh h2⟩,
      ⟨fun _ => ⟨lt_of_not_le h2, lt_of_not_le (fun hh => h1 hh)⟩, fun _ => rfl⟩⟩

/-- C4: on the empty post list, `analyze` returns the all-default result:
every score is 0 and the trend level is the lowest tier; the computation is
total (no division is ever reached, the guard returns first). -/
theorem C4_empty_posts (M : MathFns) (d : TrendDetector) (now : ℚ) (topic : String) :
    analyze M d now topic [] = { topic := topic }
  ∧ (analyze M d now topic []).velocity_score = 0
  ∧ (analyze M d now topic []).volume_score = 0
  ∧ (analyze M d now topic []).amplification_score = 0
  ∧ (analyze M d now topic []).trend_score = 0
  ∧ (analyze M d now topic []).trend_level = "❄️ NO TREND" := by
  refine ⟨by simp [analyze], ?_, ?_, ?_, ?_, ?_⟩ <;>
    norm_num [analyze, TrendResult.trend_level]

/-- C5 (amended): for every NON-EMPTY analyzed post list the dominant label
follows the strict-majority rule (PAID iff paid_count > 50% of total,
ORGANIC iff organic_count > 50%, UNCERTAIN otherwise); on the empty list
the returned default is ORGANIC, not UNCERTAIN (see the counterexample). -/
theorem C5_dominant_majority (M : MathFns) (d : TrendDetector) (now : ℚ)
    (topic : String) (posts : List SocialPost) (h : posts ≠ []) :
    ((analyze M d now topic posts).dominant_promotion_label = PromotionLabel.paid
      ↔ ((analyze M d now topic posts).paid_count : ℚ)
          > ((analyze M d now topic posts).total_posts : ℚ) * (5/10))
  ∧ ((analyze M d now topic posts).dominant_promotion_label = PromotionLabel.organic
      ↔ ((analyze M d now topic posts).organic_count : ℚ)
          > ((analyze M d now topic posts).total_posts : ℚ) * (5/10))
  ∧ ((analyze M d now topic posts).dominant_promotion_label = PromotionLabel.uncertain
      ↔ (¬ ((analyze M d now topic posts).paid_count : ℚ)
             > ((analyze M d now topic posts).total_posts : ℚ) * (5/10)
         ∧ ¬ ((analyze M d now topic posts).organic_count : ℚ)
             > ((analyze M d now topic posts).total_posts : ℚ) * (5/10))) := by
  have hne : posts.isEmpty = false := by
    cases posts with
    | nil => exact absurd rfl h
    | cons a r => rfl
  have hdom : (analyze M d now topic posts).dominant_promotion_label
      = dominantLabel (paidCount posts) (organicCount posts) posts.length := by
    simp [analyze, hne]
  have hpc : (analyze M d now topic posts).paid_count = paidCount posts := by
    simp [analyze, hne]
  have hoc : (analyze M d now topic posts).organic_count = organicCount posts := by
    simp [analyze, hne]
  have htot : (analyze M d now topic posts).total_posts = posts.length := by
    simp [analyze, hne]
  rw [hdom, hpc, hoc, htot]
  exact dominantLabel_spec (paidCount posts) (organicCount posts) posts.length
    (paid_add_organic_le_length posts)

/-- C5 witness: the majority rule instantiated on a concrete singleton
list. -/
theorem C5_dominant_majority_witness :
    ([postWithLikes 7] : List SocialPost) ≠ []
  ∧ ((analyze idMathFns defaultDetector 0 "t" [postWithLikes 7]).dominant_promotion_label
        = PromotionLabel.paid
      ↔ ((analyze idMathFns defaultDetector 0 "t" [postWithLikes 7]).paid_count : ℚ)
          > ((analyze idMathFns defaultDetector 0 "t" [postWithLikes 7]).total_posts : ℚ)
            * (5/10)) :=
  ⟨by decide,
    (C5_dominant_majority idMathFns defaultDetector 0 "t" [postWithLikes 7] (by decide)).1⟩

/-- C5 counterexample: `analyze` on the empty list has no strict majority
of any label (all counts are 0), yet the dominant label is the ORGANIC
model default rather than UNCERTAIN, contradicting the claim's "UNCERTAIN
in every other case". -/
theorem C5_counterexample :
    (analyze constMathFns defaultDetector 0 "topic" []).organic_count = 0
  ∧ (analyze constMathFns defaultDetector 0 "topic" []).paid_count = 0
  ∧ (analyze constMathFns defaultDetector 0 "topic" []).total_posts = 0
  ∧ (analyze constMathFns defaultDetector 0 "topic" []).dominant_promotion_label
      = PromotionLabel.organic
  ∧ (analyze constMathFns defaultDetector 0 "topic" []).dominant_promotion_label
      ≠ PromotionLabel.uncertain := by
  refine ⟨?_, ?_, ?_, ?_, ?_⟩ <;> simp [analyze]

/-- C6: the keyword signal matches sponsor phrases only as bounded tokens:
the text "check this out #ad" is detected, while "I upgraded my ads
manager" is not (no false positive on a substring). -/
theorem C6_keyword_token_examples :
    (PromotionDetector.detect (postWithText "check this out #ad")).keyword_detected = true
  ∧ (PromotionDetector.detect
      (postWithText "I upgraded my ads manager")).keyword_detected = false :=
  ⟨by decide, by decide⟩

/-- C8: the `top_posts` field is the first five posts (all of them when
fewer than five) of the input in stable descending `total_engagement`
order: the sorted list is a permutation of the input, pairwise descending
on the key, and any two posts in input order whose keys allow it (in
particular, ties) stay in input order. -/
theorem C8_top_posts (M : MathFns) (d : TrendDetector) (now : ℚ) (topic : String)
    (posts : List SocialPost) :
    (analyze M d now topic posts).top_posts = (sortDesc engKey posts).take 5
  ∧ (sortDesc engKey posts).Perm posts
  ∧ (sortDesc engKey posts).Pairwise (fun a b => engKey b ≤ engKey a)
  ∧ (∀ a b : SocialPost, engKey b ≤ engKey a → [a, b].Sublist posts →
      [a, b].Sublist (sortDesc engKey posts))
  ∧ (posts.length ≤ 5 → (analyze M d now topic posts).top_posts = sortDesc engKey posts) := by
  have htop : (analyze M d now topic posts).top_posts = (sortDesc engKey posts).take 5 := by
    cases posts with
    | nil => simp [analyze, sortDesc]
    | cons a r => simp [analyze]
  refine ⟨htop, sortDesc_perm engKey posts, sortDesc_sorted engKey posts,
    fun a b hab hs => sortDesc_stable engKey a b posts hab hs, ?_⟩
  intro hlen
  rw [htop, List.take_of_length_le]
  rw [(sortDesc_perm engKey posts).length_eq]
  exact hlen

/-- C8 witness: the stability clause applied to two concrete posts of the
specification's ordering example. -/
theorem C8_top_posts_witness :
    engKey (postWithLikes 20) ≤ engKey (postWithLikes 50)
  ∧ [postWithLikes 50, postWithLikes 20].Sublist examplePosts
  ∧ [postWithLikes 50, postWithLikes 20].Sublist (sortDesc engKey examplePosts)
  ∧ (analyze idMathFns defaultDetector 0 "topic" examplePosts).top_posts
      = (sortDesc engKey examplePosts).take 5 :=
  ⟨by decide, by decide,
    (C8_top_posts idMathFns defaultDetector 0 "topic" examplePosts).2.2.2.1
      (postWithLikes 50) (postWithLikes 20) (by decide) (by decide),
    (C8_top_posts idMathFns defaultDetector 0 "topic" examplePosts).1⟩

/-- C10: passing 0 for any of the three constructor parameters yields the
same detector state as omitting it (Python `or` treats 0 as falsy); the
resulting volume threshold is nonpositive exactly when a strictly negative
threshold was passed, and a nonpositive threshold makes any non-empty post
count score 100. -/
theorem C10_constructor_falsy_zero (v t : Option ℤ) (b : Option ℚ) :
    TrendDetector.mk' (some 0) t b = TrendDetector.mk' none t b
  ∧ TrendDetector.mk' v (some 0) b = TrendDetector.mk' v none b
  ∧ TrendDetector.mk' v t (some 0) = TrendDetector.mk' v t none
  ∧ ((TrendDetector.mk' v t b).volume_threshold ≤ 0 ↔ ∃ n : ℤ, t = some n ∧ n < 0)
  ∧ (∀ c : ℕ, (TrendDetector.mk' v t b).volume_threshold ≤ 0 → 0 < c →
      TrendDetector._calculate_volume (TrendDetector.mk' v t b) c = 100) := by
  refine ⟨?_, ?_, ?_, ?_, ?_⟩
  · simp [TrendDetector.mk', orDefaultInt]
  · simp [TrendDetector.mk', orDefaultInt]
  · simp [TrendDetector.mk', orDefaultQ]
  · constructor
    · intro hle
      rcases t with _ | n
      · simp [TrendDetector.mk', orDefaultInt, settings] at hle
      · by_cases hn : n = 0
        · subst hn
          simp [TrendDetector.mk', orDefaultInt, settings] at hle
        · have hv : (TrendDetector.mk' v (some n) b).volume_threshold = n := by
            simp [TrendDetector.mk', orDefaultInt, hn]
          rw [hv] at hle
          exact ⟨n, rfl, lt_of_le_of_ne hle hn⟩
    · rintro ⟨n, rfl, hn⟩
      have hv : (TrendDetector.mk' v (some n) b).volume_threshold = n := by
        simp [TrendDetector.mk', orDefaultInt, show n ≠ 0 by omega]
      rw [hv]
      omega
  · intro c hle hc
    unfold TrendDetector._calculate_volume
    rw [if_pos hle, if_pos hc]

/-- C10 witness: a strictly negative threshold passes through the
constructor and makes a post count of 7 score 100. -/
theorem C10_witness :
    (TrendDetector.mk' none (some (-3)) none).volume_threshold ≤ 0
  ∧ TrendDetector._calculate_volume (TrendDetector.mk' none (some (-3)) none) 7 = 100 := by
  have h := C10_constructor_falsy_zero none (some (-3)) none
  have h1 : (TrendDetector.mk' none (some (-3)) none).volume_threshold ≤ 0 :=
    (h.2.2.2.1).mpr ⟨-3, rfl, by norm_num⟩
  exact ⟨h1, h.2.2.2.2 7 h1 (by norm_num)⟩

/-- C3: for every topic and every post list (arbitrarily large nonnegative
engagement counters included), the velocity, volume, amplification and
composite trend scores of the returned result all lie in [0, 100].  The
hypotheses on the abstract math functions hold for the real `exp`/`log1p`,
and the boost of any configured detector is nonnegative. -/
theorem C3_scores_in_range (M : MathFns) (hexp : ∀ x, 0 ≤ M.exp x)
    (hlogn : ∀ x, 0 ≤ x → 0 ≤ M.log1p x)
    (hlog1000 : 0 < M.log1p 1000) (hlog10000 : 0 < M.log1p 10000)
    (d : TrendDetector) (hboost : 0 ≤ d.boost) (now : ℚ) (topic : String)
    (posts : List SocialPost) :
    (0 ≤ (analyze M d now topic posts).velocity_score
      ∧ (analyze M d now topic posts).velocity_score ≤ 100)
  ∧ (0 ≤ (analyze M d now topic posts).volume_score
      ∧ (analyze M d now topic posts).volume_score ≤ 100)
  ∧ (0 ≤ (analyze M d now topic posts).amplification_score
      ∧ (analyze M d now topic posts).amplification_score ≤ 100)
  ∧ (0 ≤ (analyze M d now topic posts).trend_score
      ∧ (analyze M d now topic posts).trend_score ≤ 100) := by
  cases posts with
  | nil => norm_num [analyze]
  | cons p rest =>
    obtain ⟨hv0, hv1⟩ := velocity_bounds M hexp hlogn hlog1000 d now (p :: rest)
    obtain ⟨hw0, hw1⟩ := volume_bounds d (p :: rest).length
    obtain ⟨ha0, ha1⟩ :=
      amplification_bounds M hlogn hlog10000 d hboost (p :: rest) (isCrossPlatform (p :: rest))
    obtain ⟨hc0, hc1⟩ := compositeScore_bounds
      (TrendDetector._calculate_velocity M d now (p :: rest))
      (TrendDetector._calculate_volume d (p :: rest).length)
      (TrendDetector._calculate_amplification M d (p :: rest) (isCrossPlatform (p :: rest)))
    have e1 : (analyze M d now topic (p :: rest)).velocity_score
        = pyRound (TrendDetector._calculate_velocity M d now (p :: rest)) 1 := by
      simp [analyze]
    have e2 : (analyze M d now topic (p :: rest)).volume_score
        = pyRound (TrendDetector._calculate_volume d (p :: rest).length) 1 := by
      simp [analyze]
    have e3 : (analyze M d now topic (p :: rest)).amplification_score
        = pyRound (TrendDetector._calculate_amplification M d (p :: rest)
            (isCrossPlatform (p :: rest))) 1 := by
      simp [analyze]
    have e4 : (analyze M d now topic (p :: rest)).trend_score
        = pyRound (compositeScore
            (TrendDetector._calculate_velocity M d now (p :: rest))
            (TrendDetector._calculate_volume d (p :: rest).length)
            (TrendDetector._calculate_amplification M d (p :: rest)
              (isCrossPlatform (p :: rest)))) 1 := by
      simp [analyze]
    refine ⟨⟨?_, ?_⟩, ⟨?_, ?_⟩, ⟨?_, ?_⟩, ⟨?_, ?_⟩⟩
    · rw [e1]; exact pyRound_nonneg 1 hv0
    · rw [e1]; exact pyRound_le_100 1 hv1
    · rw [e2]; exact pyRound_nonneg 1 hw0
    · rw [e2]; exact pyRound_le_100 1 hw1
    · rw [e3]; exact pyRound_nonneg 1 ha0
    · rw [e3]; exact pyRound_le_100 1 ha1
    · rw [e4]; exact pyRound_nonneg 1 hc0
    · rw [e4]; exact pyRound_le_100 1 hc1

/-- C3 witness: the bounds instantiated at the default detector and a
saturation-sized post with 10^9 likes. -/
theorem C3_scores_in_range_witness :
    0 ≤ defaultDetector.boost
  ∧ ((0 ≤ (analyze idMathFns defaultDetector 0 "t" [postWithLikes 1000000000]).velocity_score
      ∧ (analyze idMathFns defaultDetector 0 "t" [postWithLikes 1000000000]).velocity_score ≤ 100)
  ∧ (0 ≤ (analyze idMathFns defaultDetector 0 "t" [postWithLikes 1000000000]).volume_score
      ∧ (analyze idMathFns defaultDetector 0 "t" [postWithLikes 1000000000]).volume_score ≤ 100)
  ∧ (0 ≤ (analyze idMathFns defaultDetector 0 "t" [postWithLikes 1000000000]).amplification_score
      ∧ (analyze idMathFns defaultDetector 0 "t"
          [postWithLikes 1000000000]).amplification_score ≤ 100)
  ∧ (0 ≤ (analyze idMathFns defaultDetector 0 "t" [postWithLikes 1000000000]).trend_score
      ∧ (analyze idMathFns defaultDetector 0 "t" [postWithLikes 1000000000]).trend_score ≤ 100)) :=
  ⟨by norm_num [defaultDetector, TrendDetector.mk', orDefaultQ, settings],
    C3_scores_in_range idMathFns
      (fun x => by norm_num [idMathFns])
      (fun x hx => by simpa [idMathFns] using hx)
      (by norm_num [idMathFns]) (by norm_num [idMathFns])
      defaultDetector
      (by norm_num [defaultDetector, TrendDetector.mk', orDefaultQ, settings])
      0 "t" [postWithLikes 1000000000]⟩

/-- C7: with a boost factor of at least 1, a cross-platform post list never
scores less amplification than a single-platform list with the same total
engagement; and with boost > 1 and a positive log-normalised base, the
boost strictly increases the score unless the cross-platform score ties at
the 100 cap. -/
theorem C7_cross_platform_amplification (M : MathFns)
    (hlogn : ∀ x, 0 ≤ x → 0 ≤ M.log1p x) (hlog10000 : 0 < M.log1p 10000)
    (d : TrendDetector) (hboost : 1 ≤ d.boost)
    (postsCross postsSingle : List SocialPost)
    (hc : isCrossPlatform postsCross = true)
    (hs : isCrossPlatform postsSingle = false)
    (htot : TrendDetector.totalEngagementQ postsCross
      = TrendDetector.totalEngagementQ postsSingle) :
    TrendDetector._calculate_amplification M d postsSingle (isCrossPlatform postsSingle)
      ≤ TrendDetector._calculate_amplification M d postsCross (isCrossPlatform postsCross)
  ∧ (1 < d.boost → 0 < M.log1p (TrendDetector.totalEngagementQ postsCross) →
      (TrendDetector._calculate_amplification M d postsSingle (isCrossPlatform postsSingle)
        < TrendDetector._calculate_amplification M d postsCross (isCrossPlatform postsCross)
      ∨ TrendDetector._calculate_amplification M d postsCross (isCrossPlatform postsCross)
          = 100)) := by
  obtain ⟨hb0, hb100⟩ := baseAmplification_bounds M hlogn hlog10000 postsCross
  have hbase : TrendDetector.baseAmplification M postsSingle
      = TrendDetector.baseAmplification M postsCross := by
    unfold TrendDetector.baseAmplification TrendDetector.totalEngagementQ
    rw [show (postsSingle.map fun p => ((p.engagement.total_engagement : ℕ) : ℚ)).sum
        = (postsCross.map fun p => ((p.engagement.total_engagement : ℕ) : ℚ)).sum
      from htot.symm]
  have hampC : TrendDetector._calculate_amplification M d postsCross
      (isCrossPlatform postsCross)
      = min 100 (TrendDetector.baseAmplification M postsCross * d.boost) := by
    cases postsCross with
    | nil => simp [isCrossPlatform, threadsPosts, igPosts] at hc
    | cons a r => simp [TrendDetector._calculate_amplification, hc]
  have hampS : TrendDetector._calculate_amplification M d postsSingle
      (isCrossPlatform postsSingle)
      = if postsSingle.isEmpty then 0 else TrendDetector.baseAmplification M postsCross := by
    unfold TrendDetector._calculate_amplification
    rw [hs, hbase]
    simp
  have hmain : TrendDetector._calculate_amplification M d postsSingle
      (isCrossPlatform postsSingle)
      ≤ TrendDetector._calculate_amplification M d postsCross (isCrossPlatform postsCross) := by
    rw [hampC, hampS]
    have hble : TrendDetector.baseAmplification M postsCross
        ≤ min 100 (TrendDetector.baseAmplification M postsCross * d.boost) :=
      le_min hb100 (le_mul_of_one_le_right hb0 hboost)
    split_ifs
    · exact le_min (by norm_num) (mul_nonneg hb0 (le_trans (by norm_num) hboost))
    · exact hble
  refine ⟨hmain, ?_⟩
  intro hb1 hpos
  have hbasepos : 0 < TrendDetector.baseAmplification M postsCross := by
    unfold TrendDetector.baseAmplification
    exact lt_min (by norm_num) (mul_pos (div_pos hpos hlog10000) (by norm_num))
  by_cases hcap : TrendDetector.baseAmplification M postsCross * d.boost ≤ 100
  · left
    rw [hampC, hampS, min_eq_right hcap]
    have hlt : TrendDetector.baseAmplification M postsCross
        < TrendDetector.baseAmplification M postsCross * d.boost :=
      lt_mul_of_one_lt_right hbasepos hb1
    split_ifs
    · exact mul_pos hbasepos (lt_of_lt_of_le zero_lt_one hb1.le)
    · exact hlt
  · right
    rw [hampC, min_eq_left (le_of_lt (lt_of_not_le hcap))]

/-- C7 witness: the comparison instantiated on a two-platform pair versus a
single-platform pair with the same total engagement. -/
theorem C7_cross_platform_amplification_witness :
    isCrossPlatform [postWithLikes 10, igPostWithLikes 10] = true
  ∧ isCrossPlatform [postWithLikes 10, postWithLikes 10] = false
  ∧ TrendDetector.totalEngagementQ [postWithLikes 10, igPostWithLikes 10]
      = TrendDetector.totalEngagementQ [postWithLikes 10, postWithLikes 10]
  ∧ TrendDetector._calculate_amplification idMathFns defaultDetector
      [postWithLikes 10, postWithLikes 10]
      (isCrossPlatform [postWithLikes 10, postWithLikes 10])
    ≤ TrendDetector._calculate_amplification idMathFns defaultDetector
      [postWithLikes 10, igPostWithLikes 10]
      (isCrossPlatform [postWithLikes 10, igPostWithLikes 10]) :=
  ⟨by decide, by decide, rfl,
    (C7_cross_platform_amplification idMathFns
      (fun x hx => by simpa [idMathFns] using hx)
      (by norm_num [idMathFns]) defaultDetector
      (by norm_num [defaultDetector, TrendDetector.mk', orDefaultQ, settings])
      [postWithLikes 10, igPostWithLikes 10] [postWithLikes 10, postWithLikes 10]
      (by decide) (by decide) rfl).1⟩

/-- C9 (amended): `_calculate_velocity` makes timestamps naive by DROPPING
timezone information (`replace(tzinfo=None)`), keeping the wall-clock
fields; hence an aware post always gets the same age and velocity
contribution as the naive post with the SAME WALL-CLOCK fields, and this
coincides with the equivalent naive timestamp in the internal convention
exactly when the post's own offset equals the convention's offset. -/
theorem C9_strip_not_convert (M : MathFns) (d : TrendDetector) (now : ℚ)
    (post : SocialPost) (t : PyDatetime) (localOffset : ℚ) :
    TrendDetector.velocityContribution M d now { post with created_at := t.stripTz }
      = TrendDetector.velocityContribution M d now { post with created_at := t }
  ∧ (t.tzOffsetHours = some localOffset →
      TrendDetector.ageHours now (t.toNaiveConvention localOffset).stripTz
        = TrendDetector.ageHours now t.stripTz) := by
  constructor
  · unfold TrendDetector.velocityContribution
    simp [PyDatetime.stripTz]
  · intro h
    unfold PyDatetime.toNaiveConvention
    rw [h]
    simp [PyDatetime.stripTz, TrendDetector.ageHours]

/-- C9 witness: the agreement case, at a post whose offset (+9h) equals
the convention offset. -/
theorem C9_strip_not_convert_witness :
    (PyDatetime.mk 10 (some 9)).tzOffsetHours = some 9
  ∧ TrendDetector.ageHours 24 ((PyDatetime.mk 10 (some 9)).toNaiveConvention 9).stripTz
      = TrendDetector.ageHours 24 (PyDatetime.mk 10 (some 9)).stripTz :=
  ⟨rfl,
    (C9_strip_not_convert constMathFns defaultDetector 24
      (postWithLikes 100) (PyDatetime.mk 10 (some 9)) 9).2 rfl⟩

/-- C9 counterexample: with reference time 24h and the default window, an
aware post with wall-clock 10h and offset +9h denotes the instant 1h, so
its equivalent naive timestamp in a convention of offset 0 is 1h; the code
instead strips the zone and uses wall-clock 10h, producing age 14h versus
23h and a different velocity contribution. -/
theorem C9_counterexample :
    PyDatetime.toNaiveConvention 0 (PyDatetime.mk 10 (some 9)) = PyDatetime.mk 1 none
  ∧ TrendDetector.ageHours 24 (PyDatetime.mk 10 (some 9)).stripTz = 14
  ∧ TrendDetector.ageHours 24
      ((PyDatetime.toNaiveConvention 0 (PyDatetime.mk 10 (some 9))).stripTz) = 23
  ∧ TrendDetector.velocityContribution constMathFns defaultDetector 24
      { platform := Platform.threads, engagement := { likes := 100 },
        created_at := PyDatetime.mk 10 (some 9) }
    ≠ TrendDetector.velocityContribution constMathFns defaultDetector 24
      { platform := Platform.threads, engagement := { likes := 100 },
        created_at := PyDatetime.toNaiveConvention 0 (PyDatetime.mk 10 (some 9)) } := by
  refine ⟨?_, ?_, ?_, ?_⟩
  · norm_num [PyDatetime.toNaiveConvention]
  · rw [show TrendDetector.ageHours 24 (PyDatetime.mk 10 (some 9)).stripTz
        = max 14 (1/10) from by norm_num [TrendDetector.ageHours, PyDatetime.stripTz]]
    rw [max_eq_left (by norm_num)]
  · rw [show TrendDetector.ageHours 24
          ((PyDatetime.toNaiveConvention 0 (PyDatetime.mk 10 (some 9))).stripTz)
        = max 23 (1/10) from by
      norm_num [TrendDetector.ageHours, PyDatetime.stripTz, PyDatetime.toNaiveConvention]]
    rw [max_eq_left (by norm_num)]
  · have h1 : TrendDetector.velocityContribution constMathFns defaultDetector 24
        { platform := Platform.threads, engagement := { likes := 100 },
          created_at := PyDatetime.mk 10 (some 9) } = 5/7 := by
      norm_num [TrendDetector.velocityContribution, TrendDetector.ageHours,
        PyDatetime.stripTz, defaultDetector, TrendDetector.mk', orDefaultInt, settings,
        EngagementMetrics.total_engagement, max_def]
    have h2 : TrendDetector.velocityContribution constMathFns defaultDetector 24
        { platform := Platform.threads, engagement := { likes := 100 },
          created_at := PyDatetime.toNaiveConvention 0 (PyDatetime.mk 10 (some 9)) }
        = 10/23 := by
      norm_num [TrendDetector.velocityContribution, TrendDetector.ageHours,
        PyDatetime.stripTz, PyDatetime.toNaiveConvention, defaultDetector,
        TrendDetector.mk', orDefaultInt, settings,
        EngagementMetrics.total_engagement, max_def]
    rw [h1, h2]
    norm_num

end ContentAnalyzer
